import Mathlib

/-!
Verification development for the streaming chat hook of the
Cortex-Agents REST-API React client.

The definitions below are a shallow embedding of
`src/hooks/useChatMessages.ts` (stream framing, event dispatch, message
accumulation, lifecycle and error classification) together with the text
constants of `src/constants/textConstants.ts` and the message types of
`src/types/chat.ts`.  JavaScript strings are modelled through their
character lists, JSON values through an explicit inductive type, and
`undefined` fields through `Option`.  `Date` values carry no information
used by any property and are modelled as `Nat` where the code stores
them (timeline timestamps are omitted).
-/

/-! ### JavaScript string primitives -/

/-- Whitespace recognised by `String.prototype.trim` (the characters that
occur in this code base). -/
def isJsWs (c : Char) : Bool :=
  c = ' ' ∨ c = '\t' ∨ c = '\n' ∨ c = '\r'

/-- `s.trim()`. -/
def jsTrim (s : String) : String :=
  ⟨((s.data.dropWhile isJsWs).reverse.dropWhile isJsWs).reverse⟩

/-- `s.slice(n)` for a non-negative index. -/
def jsDrop (n : Nat) (s : String) : String :=
  ⟨s.data.drop n⟩

/-- `s.startsWith(p)`. -/
def jsStartsWith (p s : String) : Bool :=
  p.data.isPrefixOf s.data

/-- Contiguous-substring test on character lists. -/
def isInfixChars (needle : List Char) : List Char → Bool
  | [] => needle.isEmpty
  | c :: rest => needle.isPrefixOf (c :: rest) || isInfixChars needle rest

/-- `hay.includes(needle)`. -/
def jsIncludes (needle hay : String) : Bool :=
  isInfixChars needle.data hay.data

/-- Split a character list at every occurrence of `c`
(JavaScript `split` keeps empty fragments, and splitting the empty
string yields one empty fragment). -/
def splitOnChar (c : Char) : List Char → List (List Char)
  | [] => [[]]
  | x :: xs =>
    let r := splitOnChar c xs
    if x = c then [] :: r
    else
      match r with
      | [] => [[x]]
      | h :: t => (x :: h) :: t

/-- `chunk.split(String.fromCharCode(10))`, the per-chunk line framing of the read loop. -/
def jsSplitLines (s : String) : List String :=
  (splitOnChar '\n' s.data).map String.mk

/-- JavaScript `a || b` for strings: the empty string is falsy. -/
def jsOr (a b : String) : String :=
  if a = "" then b else a

/-- Ordered concatenation of a list of strings. -/
def concatAll : List String → String
  | [] => ""
  | t :: ts => t ++ concatAll ts

/-! ### JSON values -/

/-- A parsed JSON value (`JSON.parse` output). -/
inductive Json where
  | null
  | bool (b : Bool)
  | num (n : Int)
  | str (s : String)
  | arr (elems : List Json)
  | obj (fields : List (String × Json))

/-- Property access `j.k`: defined on objects, `undefined` (`none`) elsewhere. -/
def Json.getField : Json → String → Option Json
  | .obj fields, key => fields.lookup key
  | _, _ => none

/-- JavaScript truthiness of a JSON value. -/
def Json.truthy : Json → Bool
  | .null => false
  | .bool b => b
  | .num n => n != 0
  | .str s => s != ""
  | .arr _ => true
  | .obj _ => true

/-- Property access filtered through a truthiness test: `j.k` when the
code guards on `j.k` being truthy (`j.k && …`, `j.k ? … : …`, `j.k || d`). -/
def Json.getT (j : Json) (k : String) : Option Json :=
  match j.getField k with
  | some v => if v.truthy then some v else none
  | none => none

/-- String coercion of a JSON value as performed by `+`/template
literals.  The code only ever coerces values its TypeScript types
declare to be strings; of the non-string cases only the empty array
(which coerces to the empty string) can reach a coercion site, so the
element-joining of non-empty arrays is not reproduced. -/
def Json.asString : Json → String
  | .null => "null"
  | .bool true => "true"
  | .bool false => "false"
  | .num n => toString n
  | .str s => s
  | .arr _ => ""
  | .obj _ => "[object Object]"

/-- One element of `Array.prototype.join`: `null`/`undefined` render empty. -/
def joinElem : Json → String
  | .null => ""
  | j => j.asString

/-- `parts.join(sep)`. -/
def jsJoin (sep : String) : List Json → String
  | [] => ""
  | [x] => joinElem x
  | x :: xs => joinElem x ++ sep ++ jsJoin sep xs

example : jsTrim "  hi " = "hi" := by decide
example : jsSplitLines "a\nb\n" = ["a", "b", ""] := by decide
example : jsStartsWith "event: " "event: x" = true := by decide
example : jsIncludes "fetch" "Failed to fetch" = true := by decide
example : jsJoin "--" [Json.str "A", Json.str "B"] = "A--B" := rfl

/-! ### Text constants (`src/constants/textConstants.ts`) -/

def MAX_MESSAGES : Nat := 100

def PROCESSING_RESULTS : String := "Processing results..."

def API_ERROR_LABEL : String := "API Error"

def UNKNOWN_ERROR : String := "Unknown error"

def NO_READABLE_STREAM : String := "No readable stream available"

def RESPONSE_COMPLETED : String := "Response completed"

/-- `ERROR_TEXT.ERROR_PREFIX` of the source (the fixed error header). -/
def errorHeaderText : String := "PAWS right there! We have hit a snag :("

def USER_CANCELED : String := "User canceled the request"

/-- `getApiStatusMessage`: returns the raw API message, falling back on
"Processing..." when it is falsy. -/
def getApiStatusMessage (statusMessage : String) : String :=
  jsOr statusMessage "Processing..."

/-! ### Message data model (`src/types/chat.ts`)

Optional TypeScript fields are `Option`s; `none` is `undefined`. -/

inductive MsgStatus where
  | sending
  | sent
  | error
  | thinking
deriving DecidableEq

structure SqlQueryRec where
  sql : String
  verification : Option Json

/-- One timeline entry; the source also stores a `Date` timestamp which
carries no information used by any property here. -/
structure TimelineEntry where
  kind : String
  content : String

/-- A `ChartContent` record (`type: 'vega-lite'` plus the decoded spec). -/
structure ChartRec where
  chartKind : String
  chart_spec : Json

/-- A normalized text annot record (`TextAnnotation`); every field the
dispatcher writes is kept, as the possibly-`undefined` JSON value read
from the payload. -/
structure AnnotRec where
  type : Json
  start_index : Option Json
  end_index : Option Json
  annotation_index : Option Json
  content_index : Option Json
  text : Option Json
  url : Option Json
  title : Option Json
  source : Option Json
  doc_id : Option Json
  search_result_id : Option Json
  index : Option Json

structure ChatMessage where
  id : String
  text : String
  sender : String
  timestamp : Nat
  status : Option MsgStatus
  error : Option String
  isStreaming : Option Bool
  streamingStatus : Option String
  thinkingSteps : Option (List String)
  thinkingTexts : Option (List String)
  sqlQueries : Option (List SqlQueryRec)
  charts : Option (List ChartRec)
  annotations : Option (List AnnotRec)
  timeline : Option (List TimelineEntry)
  toolsUsed : Option (List String)

/-! ### Lifecycle controller (`useChatMessages`, lines 15-57) -/

/-- The assistant placeholder created at turn start (lines 32-44). -/
def initialAssistant (id : String) (now : Nat) : ChatMessage :=
  { id := id, text := "", sender := "assistant", timestamp := now,
    status := some MsgStatus.thinking, error := none, isStreaming := some true,
    streamingStatus := none, thinkingSteps := some [], thinkingTexts := none,
    sqlQueries := some [], charts := none, annotations := none,
    timeline := some [], toolsUsed := some [] }

/-- The user message created at turn start (lines 24-29). -/
def newUserMessage (id : String) (trimmedText : String) (now : Nat) : ChatMessage :=
  { id := id, text := trimmedText, sender := "user", timestamp := now,
    status := none, error := none, isStreaming := none,
    streamingStatus := none, thinkingSteps := none, thinkingTexts := none,
    sqlQueries := none, charts := none, annotations := none,
    timeline := none, toolsUsed := none }

/-- Appending the user/assistant pair and trimming to the most recent
`MAX_MESSAGES` entries (lines 46-52; `slice(-MAX_MESSAGES)` keeps the
last 100 elements). -/
def appendTrimmed (prev : List ChatMessage) (u a : ChatMessage) : List ChatMessage :=
  let newMessages := prev ++ [u, a]
  if newMessages.length > MAX_MESSAGES then
    newMessages.drop (newMessages.length - MAX_MESSAGES)
  else newMessages

/-- The hook state observed by collaborators. -/
structure HookState where
  messages : List ChatMessage
  isLoading : Bool

/-- The outbound request of one admitted turn (lines 60-89). -/
structure AgentRequest where
  agent : String
  bodyText : String
  toolChoice : String
  stream : Bool

/-- The synchronous admission prefix of `sendMessage` (lines 20-57 and
the request construction of lines 60-89): a blank message or an
in-flight turn is refused with no state change and no request. -/
def sendMessageStart (selectedAgent message : String) (now : Nat)
    (st : HookState) : HookState × Option AgentRequest :=
  if jsTrim message = "" ∨ st.isLoading then (st, none)
  else
    let messageId := toString now
    let u := newUserMessage (messageId ++ "_user") (jsTrim message) now
    let a := initialAssistant (messageId ++ "_assistant") now
    ({ messages := appendTrimmed st.messages u a, isLoading := true },
     some { agent := selectedAgent, bodyText := jsTrim message,
            toolChoice := "auto", stream := true })

/-- The operations that change the conversation's length. -/
inductive HookOp where
  | send (u a : ChatMessage)
  | clear

/-- One conversation-length-relevant step: an admitted `sendMessage`
appends its pair (with eviction), `clearMessages` empties the list. -/
def hookStep (msgs : List ChatMessage) : HookOp → List ChatMessage
  | .send u a => appendTrimmed msgs u a
  | .clear => []

/-- The conversation after a sequence of operations, starting empty. -/
def runOps (ops : List HookOp) : List ChatMessage :=
  ops.foldl hookStep []

/-! ### Stream reader and event framer (lines 120-136)

Each chunk is decoded and split on newlines independently; a single
`currentEvent` register persists across lines and chunks.  A line with
the `event: ` prefix updates the register; a line with the `data: `
prefix yields a record attributed to the register, unless its payload
is empty or the `[DONE]` sentinel. -/

/-- Process a list of lines: final `currentEvent` plus the emitted
(event-name, payload) records, in order (lines 131-136). -/
def frameLines : List String → String → String × List (String × String)
  | [], cur => (cur, [])
  | l :: ls, cur =>
    if jsStartsWith "event: " l then frameLines ls (jsTrim (jsDrop 7 l))
    else if jsStartsWith "data: " l then
      let d := jsTrim (jsDrop 6 l)
      if d = "" ∨ d = "[DONE]" then frameLines ls cur
      else
        let r := frameLines ls cur
        (r.1, (cur, d) :: r.2)
    else frameLines ls cur

/-- The lines actually processed by the read loop: the concatenation of
every chunk's own newline split (no partial-line carry-over). -/
def totalLines : List String → List String
  | [] => []
  | c :: cs => jsSplitLines c ++ totalLines cs

/-- The read loop of lines 124-136: one `split`-and-process pass per
received chunk, threading `currentEvent` through. -/
def frameChunks : List String → String → String × List (String × String)
  | [], cur => (cur, [])
  | c :: cs, cur =>
    let r1 := frameLines (jsSplitLines c) cur
    let r2 := frameChunks cs r1.1
    (r2.1, r1.2 ++ r2.2)

example :
    frameLines ["event: response.text.delta", "data: [DONE]", "data: x"] "" =
      ("response.text.delta", [("response.text.delta", "x")]) := by decide

/-! ### Event dispatcher and message accumulator (lines 120-323)

`extractSql` / `extractVer` are the two pure extraction collaborators
(`extractSqlQuery`, `extractVerificationInfo`); `parseChart` is the
nested `JSON.parse` applied to a chart-spec string.  All three are
parameters, so every theorem below holds for arbitrary collaborator
behaviour. -/

/-- The accumulator state of one turn: the local `assistantText`
register plus the conversation snapshot. -/
structure StreamState where
  assistantText : String
  messages : List ChatMessage

/-- The step-list update shared by the status-update and tool-result
branches: append only when not already present (dedup by exact value;
lines 162-164 and 183-185). -/
def stepAppend (steps : Option (List String)) (x : String) : Option (List String) :=
  if (steps.getD []).contains x then steps else some (steps.getD [] ++ [x])

/-- Grow the last reasoning buffer by a delta (lines 226-227). -/
def appendToLast (l : List String) (d : String) : List String :=
  match l with
  | [] => []
  | [x] => [x ++ d]
  | x :: xs => x :: appendToLast xs d

/-- `data.annotation || data` (line 279). -/
def annotBase (data : Json) : Json :=
  match data.getT "annotation" with
  | some v => v
  | none => data

/-- The normalized annot record of lines 281-294: `type` defaults to
"citation" when the field is absent or falsy; `url` is assigned
`annotationData.doc_id` unconditionally; index fields read from the
payload root, content fields from the annot base. -/
def normalizeAnnot (data : Json) : AnnotRec :=
  let a := annotBase data
  { type := match a.getT "type" with
      | some v => v
      | none => Json.str "citation",
    start_index := data.getField "start_index",
    end_index := data.getField "end_index",
    annotation_index := data.getField "annotation_index",
    content_index := data.getField "content_index",
    text := a.getField "text",
    url := a.getField "doc_id",
    title := a.getField "doc_title",
    source := a.getField "source",
    doc_id := a.getField "doc_id",
    search_result_id := a.getField "search_result_id",
    index := a.getField "index" }

/-- Dispatch one framed `(currentEvent, parsed payload)` record against
the accumulator state — the `if`/`else if` chain of lines 141-317.
Unrecognized events, falsy guards, and the shapes the source drops via
its per-record `catch` leave the state unchanged. -/
def handleData (extractSql : Json → Option String) (extractVer : Json → Option Json)
    (parseChart : String → Option Json) (aid : String)
    (currentEvent : String) (data : Json) (st : StreamState) : StreamState :=
  if currentEvent = "response.text.delta" then
    match data.getT "text" with
    | some v =>
      let newText := st.assistantText ++ v.asString
      { assistantText := newText,
        messages := st.messages.map fun msg =>
          if msg.id = aid then
            { msg with
                text := newText
                status := some MsgStatus.thinking
                isStreaming := some true }
          else msg }
    | none => st
  else if currentEvent = "response.status" then
    match data.getT "message" with
    | some v =>
      let statusMessage := getApiStatusMessage v.asString
      { st with messages := st.messages.map fun msg =>
          if msg.id = aid then
            { msg with
                status := some MsgStatus.thinking
                streamingStatus := some statusMessage
                thinkingSteps := stepAppend msg.thinkingSteps statusMessage
                timeline := some (msg.timeline.getD [] ++ [⟨"status", statusMessage⟩]) }
          else msg }
    | none => st
  else if currentEvent = "response.tool_result" then
    let toolStatus := PROCESSING_RESULTS
    let sqlQuery := extractSql data
    let verificationInfo := extractVer data
    { st with messages := st.messages.map fun msg =>
        if msg.id = aid then
          { msg with
              status := some MsgStatus.thinking
              streamingStatus := some toolStatus
              thinkingSteps := stepAppend msg.thinkingSteps toolStatus
              sqlQueries := match sqlQuery with
                | some q => some (msg.sqlQueries.getD [] ++ [⟨q, verificationInfo⟩])
                | none => msg.sqlQueries
              timeline := some (msg.timeline.getD [] ++ [⟨"tool", toolStatus⟩] ++
                (match sqlQuery with
                 | some q => [⟨"sql", q⟩]
                 | none => [])) }
        else msg }
  else if currentEvent = "response.thinking" then
    match data.getT "thinking" with
    | some th =>
      match th.getT "text" with
      | some (.str s) =>
        let thinkingText := jsTrim s
        if thinkingText = "" then st
        else
          { st with messages := st.messages.map fun msg =>
              if msg.id = aid then
                { msg with
                    status := some MsgStatus.thinking
                    thinkingTexts := some (msg.thinkingTexts.getD [] ++ [thinkingText])
                    timeline := some (msg.timeline.getD [] ++ [⟨"thinking", thinkingText⟩]) }
              else msg }
      | some _ => st
      | none => st
    | none => st
  else if currentEvent = "response.thinking.delta" then
    match data.getT "text" with
    | some v =>
      let deltaText := v.asString
      { st with messages := st.messages.map fun msg =>
          if msg.id = aid then
            if (msg.thinkingTexts.getD []).length ≥ 1 then
              { msg with
                  status := some MsgStatus.thinking
                  thinkingTexts := some (appendToLast (msg.thinkingTexts.getD []) deltaText) }
            else
              { msg with
                  status := some MsgStatus.thinking
                  thinkingTexts := some [deltaText]
                  timeline := some (msg.timeline.getD [] ++
                    [⟨"thinking", "Processing thinking..."⟩]) }
          else msg }
    | none => st
  else if currentEvent = "response.chart" then
    match data.getT "chart_spec" with
    | some v =>
      match parseChart v.asString with
      | some chartSpec =>
        { st with messages := st.messages.map fun msg =>
            if msg.id = aid then
              { msg with
                  charts := some (msg.charts.getD [] ++ [⟨"vega-lite", chartSpec⟩])
                  timeline := some (msg.timeline.getD [] ++
                    [⟨"chart", "Chart visualization added"⟩]) }
            else msg }
      | none => st
    | none => st
  else if currentEvent = "response.text.annotation" then
    if data.truthy then
      let annot := normalizeAnnot data
      let label := match annot.title with
        | some t => if t.truthy then t.asString else "Reference"
        | none => "Reference"
      { st with messages := st.messages.map fun msg =>
          if msg.id = aid then
            { msg with
                annotations := some (msg.annotations.getD [] ++ [annot])
                timeline := some (msg.timeline.getD [] ++
                  [⟨"annotation", "Citation: " ++ label⟩]) }
          else msg }
    else st
  else st

/-- Fold a list of framed `(event, payload)` records through the
dispatcher. -/
def runEvents (extractSql : Json → Option String) (extractVer : Json → Option Json)
    (parseChart : String → Option Json) (aid : String)
    (events : List (String × Json)) (st : StreamState) : StreamState :=
  events.foldl (fun s e => handleData extractSql extractVer parseChart aid e.1 e.2 s) st

/-- The accumulator state at turn start: empty `assistantText` and the
freshly appended assistant placeholder. -/
def initStream (aid : String) : StreamState :=
  { assistantText := "", messages := [initialAssistant aid 0] }

/-- A pure sequence of text-delta events carrying the given payload texts. -/
def deltaEvents (ts : List String) : List (String × Json) :=
  ts.map fun t => ("response.text.delta", Json.obj [("text", Json.str t)])

/-- Normal stream end (lines 325-336): status "sent", streaming false,
transient label cleared, display text set to the accumulated text or
the fixed fallback when none arrived. -/
def finalizeMessages (aid : String) (assistantText : String)
    (msgs : List ChatMessage) : List ChatMessage :=
  msgs.map fun msg =>
    if msg.id = aid then
      { msg with
          text := jsOr assistantText RESPONSE_COMPLETED
          status := some MsgStatus.sent
          isStreaming := some false
          streamingStatus := none }
    else msg

/-! ### Error classifier (lines 91-118 and 340-381) -/

/-- The non-2xx branch of lines 91-105: with a JSON content type, prefer
a truthy `errorParts` array joined with blank-line separators (a truthy
non-array makes `.join` throw inside the local `try`, retaining the
default); else the first truthy of `error`/`message`; else the generic
"API Error: status statusText" string, which is also kept when the
content type is not JSON or the body fails to parse. -/
def httpErrorMessage (status : Nat) (statusText : String)
    (contentType : Option String) (body : Option Json) : String :=
  let dflt := API_ERROR_LABEL ++ ": " ++ toString status ++ " " ++ statusText
  let ctJson := match contentType with
    | some ct => jsIncludes "application/json" ct
    | none => false
  if ctJson then
    match body with
    | some errorData =>
      match errorData.getT "errorParts" with
      | some (.arr parts) => jsJoin "\n\n" parts
      | some _ => dflt
      | none =>
        match errorData.getT "error" with
        | some v => v.asString
        | none =>
          match errorData.getT "message" with
          | some v => v.asString
          | none => dflt
    | none => dflt
  else dflt

/-- A thrown JavaScript `Error` as the catch block of lines 340-381
inspects it; `fullMessage` is the attached raw-text property. -/
structure JsError where
  name : String
  message : String
  fullMessage : Option String
  isTypeError : Bool

/-- The error text chosen by the catch block (lines 342-367); `none`
models a thrown non-`Error` value. -/
def classifyCatch (e : Option JsError) (backendUrl : String) : String :=
  match e with
  | some err =>
    if err.name = "AbortError" then
      errorHeaderText ++ "\n\n" ++ USER_CANCELED
    else if err.isTypeError ∧
        (jsIncludes "network" err.message ∨ jsIncludes "fetch" err.message ∨
         jsIncludes "Failed to fetch" err.message) then
      errorHeaderText ++ "\n\nConnection lost during streaming.\n\n💡 Tip: The backend server at "
        ++ backendUrl ++
        " stopped or crashed, network connection was interrupted, or the backend server is no longer running."
    else jsOr (err.fullMessage.getD "") err.message
  | none => UNKNOWN_ERROR

/-- The terminal patch both failure paths write through the accumulator
(lines 343-354 and 369-380): display text cleared, status "error",
error text set, streaming flags cleared — every other field retained. -/
def errPatch (errMsg : String) (msg : ChatMessage) : ChatMessage :=
  { msg with
      text := ""
      status := some MsgStatus.error
      error := some errMsg
      isStreaming := some false
      streamingStatus := none }

/-- Apply the terminal error patch to the addressed message only. -/
def applyErrorPatch (aid errMsg : String) (msgs : List ChatMessage) : List ChatMessage :=
  msgs.map fun msg => if msg.id = aid then errPatch errMsg msg else msg

/-! ### Concrete sample values and collaborator instances used by the
closed instances below -/

def wUser : ChatMessage := newUserMessage "u" "hi" 0

def wAsst : ChatMessage := initialAssistant "a" 0

def noSql : Json → Option String := fun _ => none

def noVer : Json → Option Json := fun _ => none

def noChart : String → Option Json := fun _ => none

/-- The `Error` thrown for a non-2xx response (lines 106-109): plain
`Error` with the raw error text attached as `fullMessage`. -/
def httpThrownError (m : String) : JsError :=
  { name := "Error", message := m, fullMessage := some m, isTypeError := false }

/-- A non-2xx JSON body of the shape the backend sends:
`\x7b"errorParts": [A, B]\x7d`. -/
def errorPartsBody (A B : String) : Json :=
  Json.obj [("errorParts", Json.arr [Json.str A, Json.str B])]

/-! ### Helper lemmas -/

theorem isPrefixOf_append (l1 l2 : List Char) : l1.isPrefixOf (l1 ++ l2) = true := by
  induction l1 with
  | nil => simp [List.isPrefixOf]
  | cons c cs ih => simp [List.isPrefixOf, ih]

theorem jsStartsWith_self_append (p e : String) :
    jsStartsWith p (p ++ e) = true := by
  obtain ⟨l⟩ := p
  obtain ⟨l'⟩ := e
  show (l.isPrefixOf (l ++ l')) = true
  exact isPrefixOf_append l l'

theorem jsDrop_event_line (e : String) : jsDrop 7 ("event: " ++ e) = e := by
  obtain ⟨l⟩ := e
  rfl

/-- Processing `l1 ++ l2` processes `l1`, then `l2` from the resulting
event register, concatenating the emitted records. -/
theorem frameLines_append (l1 l2 : List String) (cur : String) :
    frameLines (l1 ++ l2) cur =
      ((frameLines l2 (frameLines l1 cur).1).1,
       (frameLines l1 cur).2 ++ (frameLines l2 (frameLines l1 cur).1).2) := by
  induction l1 generalizing cur with
  | nil => simp [frameLines]
  | cons l ls ih =>
    simp only [List.cons_append, frameLines]
    split
    · exact ih _
    · split
      · split
        · exact ih _
        · simp [ih _]
      · exact ih _

/-- Lines holding no event declaration leave the register unchanged and
are all attributed to the incoming register value. -/
theorem frameLines_no_event (ls : List String) (cur : String)
    (h : ∀ l ∈ ls, jsStartsWith "event: " l = false) :
    (frameLines ls cur).1 = cur ∧
      ∀ p ∈ (frameLines ls cur).2, p.1 = cur := by
  induction ls with
  | nil => exact ⟨rfl, by simp [frameLines]⟩
  | cons l ls ih =>
    have hl : jsStartsWith "event: " l = false := h l (List.mem_cons_self l ls)
    have hrest := ih (fun l' hl' => h l' (List.mem_cons_of_mem l hl'))
    simp only [frameLines]
    split
    · next hft => rw [hl] at hft; exact Bool.noConfusion hft
    · split
      · split
        · exact hrest
        · refine ⟨hrest.1, ?_⟩
          intro p hp
          rcases List.mem_cons.1 hp with rfl | hp
          · rfl
          · exact hrest.2 p hp
      · exact hrest

/-- The read loop processes the per-chunk line splits in sequence. -/
theorem frameChunks_eq_frameLines (chunks : List String) (cur : String) :
    frameChunks chunks cur = frameLines (totalLines chunks) cur := by
  induction chunks generalizing cur with
  | nil => rfl
  | cons c cs ih =>
    simp only [frameChunks, totalLines, frameLines_append, ih]

/-- C2: in the event framer, a line starting with the event-declaration
prefix updates the current event name, and every subsequent
data-declaration line is attributed to the most recently declared event
name, even when blank lines or other lines intervene; the attribution
(and the register itself) changes only when a new event-declaration
line appears. -/
theorem C2_event_attribution (e : String) (mid : List String) (cur : String)
    (hmid : ∀ l ∈ mid, jsStartsWith "event: " l = false) :
    (frameLines (("event: " ++ e) :: mid) cur).1 = jsTrim e ∧
      ∀ p ∈ (frameLines (("event: " ++ e) :: mid) cur).2, p.1 = jsTrim e := by
  have hstep : frameLines (("event: " ++ e) :: mid) cur
      = frameLines mid (jsTrim e) := by
    simp only [frameLines, jsStartsWith_self_append, jsDrop_event_line, if_true]
  rw [hstep]
  exact frameLines_no_event mid (jsTrim e) hmid

/-- C2 witness: blank lines, unrecognized lines and several data lines
after one event declaration are all attributed to that event. -/
theorem C2_event_attribution_witness :
    (frameLines (("event: " ++ "response.text.delta") ::
        ["", "data: one", "ignored line", "data: two"]) "").1
      = jsTrim "response.text.delta" :=
  (C2_event_attribution "response.text.delta"
    ["", "data: one", "ignored line", "data: two"] "" (by decide)).1

/-- C10: line framing is performed independently per received chunk —
each chunk's decoded text is split on newlines with no partial-line
carry-over, so a line split across two chunk reads is processed as two
separate lines rather than reassembled: concretely, an `event: `
declaration split mid-prefix fails the prefix match in both fragments,
leaving the following data record attributed to the stale register,
whereas the same bytes in one chunk would attribute it to the declared
event. -/
theorem C10_per_chunk_framing :
    (∀ chunks cur, frameChunks chunks cur = frameLines (totalLines chunks) cur) ∧
    frameChunks ["even", "t: response.text.delta\ndata: \x7b\"text\":\"hi\"\x7d"] "" =
      ("", [("", "\x7b\"text\":\"hi\"\x7d")]) ∧
    frameChunks ["event: response.text.delta\ndata: \x7b\"text\":\"hi\"\x7d"] "" =
      ("response.text.delta",
       [("response.text.delta", "\x7b\"text\":\"hi\"\x7d")]) :=
  ⟨frameChunks_eq_frameLines, by decide, by decide⟩

/-- One lifecycle step keeps the conversation even-length (messages are
appended in user/assistant pairs) and within capacity. -/
theorem appendTrimmed_invariant (prev : List ChatMessage) (u a : ChatMessage)
    (h : prev.length % 2 = 0 ∧ prev.length ≤ MAX_MESSAGES) :
    (appendTrimmed prev u a).length % 2 = 0 ∧
      (appendTrimmed prev u a).length ≤ MAX_MESSAGES := by
  simp only [appendTrimmed]
  split
  · next hgt =>
    simp only [List.length_drop, List.length_append, List.length_cons,
      List.length_nil, MAX_MESSAGES] at *
    omega
  · next hle =>
    simp only [List.length_append, List.length_cons, List.length_nil,
      MAX_MESSAGES, Nat.not_lt] at *
    omega

/-- The conversation reachable by any operation sequence is even-length
and within capacity. -/
theorem runOps_invariant (ops : List HookOp) :
    (runOps ops).length % 2 = 0 ∧ (runOps ops).length ≤ MAX_MESSAGES := by
  suffices h : ∀ msgs : List ChatMessage,
      msgs.length % 2 = 0 ∧ msgs.length ≤ MAX_MESSAGES →
      (ops.foldl hookStep msgs).length % 2 = 0 ∧
        (ops.foldl hookStep msgs).length ≤ MAX_MESSAGES by
    exact h [] (by simp [MAX_MESSAGES])
  induction ops with
  | nil => intro msgs hm; simpa using hm
  | cons op ops ih =>
    intro msgs hm
    simp only [List.foldl_cons]
    cases op with
    | send u a => exact ih _ (appendTrimmed_invariant msgs u a hm)
    | clear => exact ih _ (by simp [hookStep, MAX_MESSAGES])

/-- C3: after any sequence of sendMessage, clearMessages and eviction
steps the conversation never holds more than 100 messages, and whenever
appending a user/assistant pair would exceed 100, exactly the two
oldest messages (the oldest pair) are dropped while every newer message
is kept in order. -/
theorem C3_capacity_and_eviction (ops : List HookOp) (u a : ChatMessage) :
    (runOps ops).length ≤ MAX_MESSAGES ∧
      ((runOps ops ++ [u, a]).length > MAX_MESSAGES →
        appendTrimmed (runOps ops) u a = (runOps ops).drop 2 ++ [u, a]) := by
  obtain ⟨hpar, hle⟩ := runOps_invariant ops
  refine ⟨hle, fun hgt => ?_⟩
  have hgt' : (runOps ops).length + 2 > MAX_MESSAGES := by
    simpa [List.length_append] using hgt
  have hlen : (runOps ops).length = 100 := by
    simp only [MAX_MESSAGES] at hgt' hle
    omega
  simp only [appendTrimmed]
  rw [if_pos (by simpa [List.length_append] using hgt')]
  have h2 : (runOps ops ++ [u, a]).length - MAX_MESSAGES = 2 := by
    simp [List.length_append, hlen, MAX_MESSAGES]
  rw [h2, List.drop_append_of_le_length (by omega)]

set_option maxRecDepth 40000 in
/-- C3 witness: after 51 admitted turns the buffer sits at 100, and the
52nd append evicts exactly the oldest pair. -/
theorem C3_capacity_and_eviction_witness :
    appendTrimmed (runOps (List.replicate 51 (HookOp.send wUser wAsst))) wUser wAsst
      = (runOps (List.replicate 51 (HookOp.send wUser wAsst))).drop 2 ++ [wUser, wAsst] :=
  (C3_capacity_and_eviction (List.replicate 51 (HookOp.send wUser wAsst)) wUser wAsst).2
    (by decide)

/-- C8: `sendMessage` with blank (empty-after-trim) text, or while a
turn is already in flight, is a no-op — the hook state (and so the
conversation length) is unchanged and no request is issued. -/
theorem C8_send_admission_noop (selectedAgent message : String) (now : Nat)
    (st : HookState) (h : jsTrim message = "" ∨ st.isLoading = true) :
    sendMessageStart selectedAgent message now st = (st, none) := by
  rcases h with h | h
  · simp [sendMessageStart, h]
  · simp [sendMessageStart, h]

/-- C8 witness: a whitespace-only message is refused. -/
theorem C8_send_admission_noop_witness :
    sendMessageStart "agent" "   " 0 ⟨[], false⟩ = (⟨[], false⟩, none) :=
  C8_send_admission_noop "agent" "   " 0 ⟨[], false⟩ (Or.inl (by decide))

/-- The terminal error patch addresses one message by id and keeps list
positions. -/
theorem applyErrorPatch_getElem (aid e : String) (msgs : List ChatMessage)
    (i : Nat) (h1 : i < msgs.length)
    (h2 : i < (applyErrorPatch aid e msgs).length) :
    (applyErrorPatch aid e msgs).get ⟨i, h2⟩ =
      if (msgs.get ⟨i, h1⟩).id = aid then errPatch e (msgs.get ⟨i, h1⟩)
      else msgs.get ⟨i, h1⟩ := by
  simp [applyErrorPatch]

/-- A plain `Error` carrying a `fullMessage` is classified by the catch
block as exactly that full message. -/
theorem classifyCatch_fullMessage (m backendUrl : String) :
    classifyCatch (some (httpThrownError m)) backendUrl = m := by
  simp only [classifyCatch, httpThrownError]
  rw [if_neg (by decide), if_neg (by simp)]
  simp [jsOr, Option.getD]

/-- The error-body preference of lines 98-101 on a two-part
`errorParts` body. -/
theorem httpErrorMessage_parts (A B statusText : String) (status : Nat) :
    httpErrorMessage status statusText (some "application/json")
        (some (errorPartsBody A B)) = A ++ "\n\n" ++ B := by
  have hct : jsIncludes "application/json" "application/json" = true := by decide
  simp [httpErrorMessage, errorPartsBody, Json.getT, Json.getField,
    Json.truthy, jsJoin, joinElem, Json.asString, hct]

/-- C4: a non-2xx HTTP response with a JSON content type whose body is
the object with `errorParts` `[A, B]` yields the terminal error text
exactly `A ++ blank-line ++ B` on the assistant message. -/
theorem C4_error_parts_joined (A B statusText backendUrl aid : String)
    (status : Nat) (msgs : List ChatMessage) (i : Nat)
    (h1 : i < msgs.length)
    (h2 : i < (applyErrorPatch aid (classifyCatch (some (httpThrownError
      (httpErrorMessage status statusText (some "application/json")
        (some (errorPartsBody A B))))) backendUrl) msgs).length)
    (hid : (msgs.get ⟨i, h1⟩).id = aid) :
    httpErrorMessage status statusText (some "application/json")
        (some (errorPartsBody A B)) = A ++ "\n\n" ++ B ∧
    ((applyErrorPatch aid (classifyCatch (some (httpThrownError
        (httpErrorMessage status statusText (some "application/json")
          (some (errorPartsBody A B))))) backendUrl) msgs).get ⟨i, h2⟩).error
      = some (A ++ "\n\n" ++ B) := by
  refine ⟨httpErrorMessage_parts A B statusText status, ?_⟩
  rw [applyErrorPatch_getElem _ _ _ _ h1 h2, if_pos hid]
  show some (classifyCatch _ _) = _
  rw [classifyCatch_fullMessage, httpErrorMessage_parts]

/-- C4 witness: a concrete 503 with body parts "A" and "B". -/
theorem C4_error_parts_joined_witness :
    httpErrorMessage 503 "Service Unavailable" (some "application/json")
        (some (errorPartsBody "A" "B")) = "A" ++ "\n\n" ++ "B" :=
  (C4_error_parts_joined "A" "B" "Service Unavailable" "http://localhost:3001"
    "a" 503 [wAsst] 0 (by decide) (by decide) (by decide)).1

/-- C5: a turn aborted through the cancellation handle leaves the
assistant placeholder with status "error", streaming false, empty
display text, and an error string containing the fixed cancellation
notice. -/
theorem C5_cancel_terminal_state (backendUrl : String) (err : JsError)
    (aid : String) (msgs : List ChatMessage) (i : Nat)
    (h1 : i < msgs.length)
    (h2 : i < (applyErrorPatch aid (classifyCatch (some err) backendUrl) msgs).length)
    (hname : err.name = "AbortError") (hid : (msgs.get ⟨i, h1⟩).id = aid) :
    ((applyErrorPatch aid (classifyCatch (some err) backendUrl) msgs).get ⟨i, h2⟩).status
        = some MsgStatus.error ∧
    ((applyErrorPatch aid (classifyCatch (some err) backendUrl) msgs).get ⟨i, h2⟩).isStreaming
        = some false ∧
    ((applyErrorPatch aid (classifyCatch (some err) backendUrl) msgs).get ⟨i, h2⟩).text
        = "" ∧
    ∃ s, ((applyErrorPatch aid (classifyCatch (some err) backendUrl) msgs).get ⟨i, h2⟩).error
        = some s ∧ jsIncludes USER_CANCELED s = true := by
  rw [applyErrorPatch_getElem _ _ _ _ h1 h2, if_pos hid]
  refine ⟨rfl, rfl, rfl, classifyCatch (some err) backendUrl, rfl, ?_⟩
  simp only [classifyCatch, hname, if_pos]
  decide

/-- C5 witness: an `AbortError` patched onto the concrete placeholder. -/
theorem C5_cancel_terminal_state_witness :
    ((applyErrorPatch "a" (classifyCatch
        (some { name := "AbortError", message := "The user aborted a request.",
                fullMessage := none, isTypeError := false })
        "http://localhost:3001") [wAsst]).get ⟨0, by decide⟩).status
      = some MsgStatus.error ∧
    ((applyErrorPatch "a" (classifyCatch
        (some { name := "AbortError", message := "The user aborted a request.",
                fullMessage := none, isTypeError := false })
        "http://localhost:3001") [wAsst]).get ⟨0, by decide⟩).isStreaming
      = some false ∧
    ((applyErrorPatch "a" (classifyCatch
        (some { name := "AbortError", message := "The user aborted a request.",
                fullMessage := none, isTypeError := false })
        "http://localhost:3001") [wAsst]).get ⟨0, by decide⟩).text
      = "" ∧
    ∃ s, ((applyErrorPatch "a" (classifyCatch
        (some { name := "AbortError", message := "The user aborted a request.",
                fullMessage := none, isTypeError := false })
        "http://localhost:3001") [wAsst]).get ⟨0, by decide⟩).error
      = some s ∧ jsIncludes USER_CANCELED s = true :=
  C5_cancel_terminal_state "http://localhost:3001"
    { name := "AbortError", message := "The user aborted a request.",
      fullMessage := none, isTypeError := false }
    "a" [wAsst] 0 (by decide) (by decide) rfl rfl

/-- C9: every classified failure writes a terminal patch that clears
the display text and sets status "error" on the addressed assistant
message while retaining its accumulated timeline, step list, reasoning
buffers, sql-query, chart and annotation collections, and leaves every
other message in the conversation unchanged. -/
theorem C9_failure_patch_frame (backendUrl : String) (e : Option JsError)
    (aid : String) (msgs : List ChatMessage) (i : Nat)
    (h1 : i < msgs.length)
    (h2 : i < (applyErrorPatch aid (classifyCatch e backendUrl) msgs).length) :
    ((msgs.get ⟨i, h1⟩).id = aid →
      ((applyErrorPatch aid (classifyCatch e backendUrl) msgs).get ⟨i, h2⟩).text = "" ∧
      ((applyErrorPatch aid (classifyCatch e backendUrl) msgs).get ⟨i, h2⟩).status
          = some MsgStatus.error ∧
      ((applyErrorPatch aid (classifyCatch e backendUrl) msgs).get ⟨i, h2⟩).timeline
          = (msgs.get ⟨i, h1⟩).timeline ∧
      ((applyErrorPatch aid (classifyCatch e backendUrl) msgs).get ⟨i, h2⟩).thinkingSteps
          = (msgs.get ⟨i, h1⟩).thinkingSteps ∧
      ((applyErrorPatch aid (classifyCatch e backendUrl) msgs).get ⟨i, h2⟩).thinkingTexts
          = (msgs.get ⟨i, h1⟩).thinkingTexts ∧
      ((applyErrorPatch aid (classifyCatch e backendUrl) msgs).get ⟨i, h2⟩).sqlQueries
          = (msgs.get ⟨i, h1⟩).sqlQueries ∧
      ((applyErrorPatch aid (classifyCatch e backendUrl) msgs).get ⟨i, h2⟩).charts
          = (msgs.get ⟨i, h1⟩).charts ∧
      ((applyErrorPatch aid (classifyCatch e backendUrl) msgs).get ⟨i, h2⟩).annotations
          = (msgs.get ⟨i, h1⟩).annotations) ∧
    ((msgs.get ⟨i, h1⟩).id ≠ aid →
      (applyErrorPatch aid (classifyCatch e backendUrl) msgs).get ⟨i, h2⟩
          = msgs.get ⟨i, h1⟩) := by
  rw [applyErrorPatch_getElem _ _ _ _ h1 h2]
  constructor
  · intro hid
    rw [if_pos hid]
    exact ⟨rfl, rfl, rfl, rfl, rfl, rfl, rfl, rfl⟩
  · intro hnid
    rw [if_neg hnid]

/-- C9 witness: an unknown thrown value patched onto the concrete
placeholder keeps its collections. -/
theorem C9_failure_patch_frame_witness :
    ((applyErrorPatch "a" (classifyCatch none "http://localhost:3001") [wAsst]).get
        ⟨0, by decide⟩).text = "" ∧
    ((applyErrorPatch "a" (classifyCatch none "http://localhost:3001") [wAsst]).get
        ⟨0, by decide⟩).status = some MsgStatus.error ∧
    ((applyErrorPatch "a" (classifyCatch none "http://localhost:3001") [wAsst]).get
        ⟨0, by decide⟩).timeline = (([wAsst] : List ChatMessage).get ⟨0, by decide⟩).timeline ∧
    ((applyErrorPatch "a" (classifyCatch none "http://localhost:3001") [wAsst]).get
        ⟨0, by decide⟩).thinkingSteps = (([wAsst] : List ChatMessage).get ⟨0, by decide⟩).thinkingSteps ∧
    ((applyErrorPatch "a" (classifyCatch none "http://localhost:3001") [wAsst]).get
        ⟨0, by decide⟩).thinkingTexts = (([wAsst] : List ChatMessage).get ⟨0, by decide⟩).thinkingTexts ∧
    ((applyErrorPatch "a" (classifyCatch none "http://localhost:3001") [wAsst]).get
        ⟨0, by decide⟩).sqlQueries = (([wAsst] : List ChatMessage).get ⟨0, by decide⟩).sqlQueries ∧
    ((applyErrorPatch "a" (classifyCatch none "http://localhost:3001") [wAsst]).get
        ⟨0, by decide⟩).charts = (([wAsst] : List ChatMessage).get ⟨0, by decide⟩).charts ∧
    ((applyErrorPatch "a" (classifyCatch none "http://localhost:3001") [wAsst]).get
        ⟨0, by decide⟩).annotations = (([wAsst] : List ChatMessage).get ⟨0, by decide⟩).annotations :=
  (C9_failure_patch_frame "http://localhost:3001" none "a" [wAsst] 0
    (by decide) (by decide)).1 rfl

/-- C6 counterexample: a payload carrying both an explicit `url` and a
`doc_id` stores the `doc_id` as its url — the explicit url is not
preserved, refuting the conditional-aliasing reading. -/
theorem C6_url_not_preserved :
    (normalizeAnnot (Json.obj [("url", Json.str "https://explicit.example"),
        ("doc_id", Json.str "doc-42")])).url = some (Json.str "doc-42") ∧
    (normalizeAnnot (Json.obj [("url", Json.str "https://explicit.example"),
        ("doc_id", Json.str "doc-42")])).url ≠ some (Json.str "https://explicit.example") := by
  refine ⟨rfl, fun h => ?_⟩
  have h' : some (Json.str "doc-42") = some (Json.str "https://explicit.example") := h
  injection h' with h1
  injection h1 with h2
  exact absurd h2 (by decide)

/-- C6 (amended): the stored record's type defaults to "citation" when
the type field is absent, and its url field is always aliased from the
document identifier field (`doc_id`) — any explicit url in the payload
is ignored. -/
theorem C6_annot_normalization (d : Json) :
    (normalizeAnnot d).url = (annotBase d).getField "doc_id" ∧
    ((annotBase d).getT "type" = none →
      (normalizeAnnot d).type = Json.str "citation") := by
  refine ⟨rfl, fun h => ?_⟩
  simp [normalizeAnnot, h]

/-- C6 witness: a payload without a type field defaults to "citation". -/
theorem C6_annot_normalization_witness :
    (normalizeAnnot (Json.obj [("doc_id", Json.str "doc-7")])).type
      = Json.str "citation" :=
  (C6_annot_normalization (Json.obj [("doc_id", Json.str "doc-7")])).2 rfl

/-- Appending to a non-empty string stays non-empty. -/
theorem str_append_ne_empty (a b : String) (ha : a ≠ "") : a ++ b ≠ "" := by
  intro h
  apply ha
  have hd : a.data ++ b.data = ([] : List Char) := by
    have := congrArg String.data h
    rwa [String.data_append] at this
  have h0 : a.data = [] := (List.append_eq_nil.mp hd).1
  obtain ⟨l⟩ := a
  cases h0
  rfl

/-- The concatenation of a non-empty-headed list is non-empty. -/
theorem concatAll_cons_ne_empty (t : String) (ts : List String) (ht : t ≠ "") :
    concatAll (t :: ts) ≠ "" :=
  str_append_ne_empty t (concatAll ts) ht

/-- A text-delta event with a non-empty payload text appends exactly
that text to the `assistantText` register. -/
theorem handleData_delta (extractSql : Json → Option String)
    (extractVer : Json → Option Json) (parseChart : String → Option Json)
    (aid t : String) (st : StreamState) (ht : t ≠ "") :
    (handleData extractSql extractVer parseChart aid "response.text.delta"
        (Json.obj [("text", Json.str t)]) st).assistantText
      = st.assistantText ++ t := by
  have hbne : (t != "") = true := bne_iff_ne.mpr ht
  simp [handleData, Json.getT, Json.getField, Json.truthy, Json.asString, hbne]

/-- Folding a pure delta sequence accumulates the concatenation of the
payload texts onto the register. -/
theorem runEvents_delta_text (extractSql : Json → Option String)
    (extractVer : Json → Option Json) (parseChart : String → Option Json)
    (aid : String) (ts : List String) (st : StreamState)
    (h : ∀ t ∈ ts, t ≠ "") :
    (runEvents extractSql extractVer parseChart aid (deltaEvents ts) st).assistantText
      = st.assistantText ++ concatAll ts := by
  induction ts generalizing st with
  | nil => simp [runEvents, deltaEvents, concatAll]
  | cons t ts ih =>
    have ht : t ≠ "" := h t (List.mem_cons_self t ts)
    have hts : ∀ x ∈ ts, x ≠ "" := fun x hx => h x (List.mem_cons_of_mem t hx)
    rw [show runEvents extractSql extractVer parseChart aid (deltaEvents (t :: ts)) st
        = runEvents extractSql extractVer parseChart aid (deltaEvents ts)
            (handleData extractSql extractVer parseChart aid "response.text.delta"
              (Json.obj [("text", Json.str t)]) st) from rfl]
    rw [ih _ hts, handleData_delta extractSql extractVer parseChart aid t st ht]
    rw [show concatAll (t :: ts) = t ++ concatAll ts from rfl, String.append_assoc]

/-- C1: for a turn receiving a sequence of text-delta events whose
payloads carry non-empty text fields, the accumulated text is their
ordered concatenation, and after normal stream end the assistant
message's display text equals that concatenation — the fixed "response
completed" fallback applies exactly when no text ever arrived. -/
theorem C1_delta_concat (extractSql : Json → Option String)
    (extractVer : Json → Option Json) (parseChart : String → Option Json)
    (aid : String) (ts : List String) (hne : ∀ t ∈ ts, t ≠ "") :
    (runEvents extractSql extractVer parseChart aid (deltaEvents ts)
        (initStream aid)).assistantText = concatAll ts ∧
    ∀ m ∈ finalizeMessages aid
        (runEvents extractSql extractVer parseChart aid (deltaEvents ts)
          (initStream aid)).assistantText
        (runEvents extractSql extractVer parseChart aid (deltaEvents ts)
          (initStream aid)).messages,
      m.id = aid → m.text = if ts = [] then RESPONSE_COMPLETED else concatAll ts := by
  have hA : (runEvents extractSql extractVer parseChart aid (deltaEvents ts)
      (initStream aid)).assistantText = concatAll ts := by
    rw [runEvents_delta_text extractSql extractVer parseChart aid ts _ hne]
    exact String.empty_append _
  refine ⟨hA, ?_⟩
  intro m hm hid
  rcases List.mem_map.1 hm with ⟨m0, hm0, rfl⟩
  by_cases h0 : m0.id = aid
  · rw [if_pos h0]
    show jsOr (runEvents extractSql extractVer parseChart aid (deltaEvents ts)
        (initStream aid)).assistantText RESPONSE_COMPLETED = _
    rw [hA]
    cases ts with
    | nil => simp [jsOr, concatAll]
    | cons t ts' =>
      have hne' := concatAll_cons_ne_empty t ts' (hne t (List.mem_cons_self t ts'))
      simp [jsOr, hne']
  · rw [if_neg h0] at hid ⊢
    exact absurd hid h0

/-- C1 witness: two deltas "Hel" and "lo" accumulate to "Hello". -/
theorem C1_delta_concat_witness :
    (runEvents noSql noVer noChart "a" (deltaEvents ["Hel", "lo"])
        (initStream "a")).assistantText = concatAll ["Hel", "lo"] :=
  (C1_delta_concat noSql noVer noChart "a" ["Hel", "lo"] (by decide)).1

/-- The dedup-append of the step list preserves Nodup. -/
theorem stepAppend_nodup (steps : Option (List String)) (x : String)
    (h : (steps.getD []).Nodup) : ((stepAppend steps x).getD []).Nodup := by
  unfold stepAppend
  split
  · exact h
  · next hc =>
    simp only [Option.getD_some]
    rw [List.nodup_append]
    refine ⟨h, List.nodup_singleton x, ?_⟩
    intro a ha hb
    rcases List.mem_singleton.mp hb with rfl
    exact hc (List.elem_iff.mpr ha)

/-- Membership in an id-addressed map update comes from an updated or an
untouched original member. -/
theorem mem_update_target {l : List ChatMessage} {aid : String}
    {f : ChatMessage → ChatMessage} {m' : ChatMessage}
    (hm' : m' ∈ l.map fun msg => if msg.id = aid then f msg else msg) :
    (∃ m ∈ l, m' = f m) ∨ m' ∈ l := by
  rcases List.mem_map.1 hm' with ⟨m, hm, rfl⟩
  by_cases h : m.id = aid
  · exact Or.inl ⟨m, hm, by rw [if_pos h]⟩
  · rw [if_neg h]
    exact Or.inr hm

set_option maxHeartbeats 2000000 in
/-- Every dispatcher branch leaves step lists duplicate-free. -/
theorem handleData_steps_nodup (extractSql : Json → Option String)
    (extractVer : Json → Option Json) (parseChart : String → Option Json)
    (aid currentEvent : String) (data : Json) (st : StreamState)
    (h : ∀ m ∈ st.messages, (m.thinkingSteps.getD []).Nodup) :
    ∀ m' ∈ (handleData extractSql extractVer parseChart aid currentEvent data st).messages,
      (m'.thinkingSteps.getD []).Nodup := by
  intro m' hm'
  unfold handleData at hm'
  repeat' split at hm'
  all_goals try dsimp only at hm'
  all_goals try (repeat' split at hm')
  all_goals
    first
      | exact h m' hm'
      | (rcases mem_update_target hm' with ⟨m, hm, rfl⟩ | hm''
         · first
             | exact h m hm
             | exact stepAppend_nodup _ _ (h m hm)
             | (split
                · exact h m hm
                · exact h m hm)
         · exact h m' hm'')

/-- The invariant persists through any event sequence. -/
theorem runEvents_steps_nodup (extractSql : Json → Option String)
    (extractVer : Json → Option Json) (parseChart : String → Option Json)
    (aid : String) (events : List (String × Json)) (st : StreamState)
    (h : ∀ m ∈ st.messages, (m.thinkingSteps.getD []).Nodup) :
    ∀ m' ∈ (runEvents extractSql extractVer parseChart aid events st).messages,
      (m'.thinkingSteps.getD []).Nodup := by
  induction events generalizing st with
  | nil => exact h
  | cons e es ih =>
    exact ih _ (handleData_steps_nodup extractSql extractVer parseChart aid e.1 e.2 st h)

/-- C7: starting from any conversation whose step lists are
duplicate-free (in particular the fresh assistant placeholder), no
sequence of status-update, tool-result or other events ever produces a
message whose step list contains two equal values. -/
theorem C7_steps_nodup (extractSql : Json → Option String)
    (extractVer : Json → Option Json) (parseChart : String → Option Json)
    (aid : String) (events : List (String × Json)) (st : StreamState)
    (h : ∀ m ∈ st.messages, (m.thinkingSteps.getD []).Nodup)
    (i : Nat)
    (h2 : i < (runEvents extractSql extractVer parseChart aid events st).messages.length) :
    (((runEvents extractSql extractVer parseChart aid events st).messages.get
        ⟨i, h2⟩).thinkingSteps.getD []).Nodup :=
  runEvents_steps_nodup extractSql extractVer parseChart aid events st h _
    (List.get_mem _ _ _)

/-- C7 witness: two identical status events and a tool-result event
leave the placeholder's step list duplicate-free. -/
theorem C7_steps_nodup_witness :
    (((runEvents noSql noVer noChart "a"
        [("response.status", Json.obj [("message", Json.str "Planning")]),
         ("response.status", Json.obj [("message", Json.str "Planning")]),
         ("response.tool_result", Json.obj [])]
        (initStream "a")).messages.get ⟨0, by decide⟩).thinkingSteps.getD []).Nodup :=
  C7_steps_nodup noSql noVer noChart "a"
    [("response.status", Json.obj [("message", Json.str "Planning")]),
     ("response.status", Json.obj [("message", Json.str "Planning")]),
     ("response.tool_result", Json.obj [])]
    (initStream "a") (by decide) 0 (by decide)
